import Mathlib

/-!
Shallow embedding of the ticket-digest bot
(`CheckApplicationStatusBot`: `main.py`, `models.py`,
`services/db_service.py`) together with proofs about its
composition, registry and broadcast logic.

Database fetch results (ticket rows, the users dictionary, the
building-description dictionary, categories and subcategories) are
parameters of the embedded composers: the composers in `main.py` are
pure functions of those fetch results.
-/

set_option autoImplicit false

namespace ReportBot

/-! ## Python-style dictionary and truthiness helpers

Python `dict`s preserve insertion order; lookups, defaulted lookups and
insert-or-overwrite are modelled on association lists. -/

/-- `d.get(k)`: first value bound to `k`, if any. -/
def pyGet {α β : Type} [DecidableEq α] : List (α × β) → α → Option β
  | [], _ => none
  | (k0, v0) :: rest, k => if k0 = k then some v0 else pyGet rest k

/-- `d.get(k, dflt)`. -/
def pyGetD {α β : Type} [DecidableEq α] (d : List (α × β)) (k : α) (dflt : β) : β :=
  (pyGet d k).getD dflt

/-- `d[k] = v`: overwrite in place if the key is present, else append. -/
def pyDictInsert {α β : Type} [DecidableEq α] : List (α × β) → α → β → List (α × β)
  | [], k, v => [(k, v)]
  | (k0, v0) :: rest, k, v =>
    if k0 = k then (k0, v) :: rest else (k0, v0) :: pyDictInsert rest k v

/-- `d[k] = d.get(k, 0) + 1`, the counting idiom used by both grouping loops. -/
def pyDictIncr {α : Type} [DecidableEq α] (d : List (α × Nat)) (k : α) : List (α × Nat) :=
  pyDictInsert d k (pyGetD d k 0 + 1)

/-- Python `x or dflt` for an optional string: `None` and `""` are falsy. -/
def pyOrS (x : Option String) (dflt : String) : String :=
  match x with
  | none => dflt
  | some s => if s = "" then dflt else s

/-! ## Data model (`models.py`) -/

/-- The `Ticket` dataclass of `models.py` (lines 14-39): exactly the fields
declared there. -/
structure Ticket where
  id : Int
  user_id : Option Int
  specialist_id : Option Int
  building_id : Option Int
  description : Option String
  cabinet : Option String
  status : String
  department_id : Int
deriving DecidableEq, Repr

/-- The `User` dataclass of `models.py` (lines 42-65). -/
structure User where
  id : Int
  firstname : Option String
  lastname : Option String
  phone : Option String
deriving DecidableEq, Repr

/-- `User.full_name` (`models.py` lines 61-65): trimmed
`"{firstname or ''} {lastname or ''}"`, falling back to `"ID {id}"`
when that is empty. -/
def User.full_name (u : User) : String :=
  let name := (pyOrS u.firstname "" ++ " " ++ pyOrS u.lastname "").trim
  if name = "" then "ID " ++ toString u.id else name

/-- Modelled from the spec: the `Category` class imported by
`services/db_service.py` from `models` is absent from the `models.py`
source; the spec's data model gives it an id and a name with department
scoping, and `main.py` reads `cat.id` and `cat.name_ru`. -/
structure Category where
  id : Int
  name_ru : Option String
deriving DecidableEq, Repr

/-- Modelled from the spec: the `SubCategory` class imported by
`services/db_service.py` from `models` is absent from the `models.py`
source; the spec gives it an id, a name and a parent-category linkage,
and `main.py` reads `subcat.id` and `subcat.name_ru`. -/
structure SubCategory where
  id : Int
  name_ru : Option String
  category_id : Int
deriving DecidableEq, Repr

/-- A ticket row as consumed by the itemized composers in `main.py`:
the fields of the `Ticket` dataclass together with the `title`,
`category_id` and `subcategory_id` attributes that
`compose_new_tickets_list` and `compose_taken_tickets_list` additionally
read (the dataclass in `models.py` does not declare those three; see the
field-name lists `ticketDataclassFields` and
`composeNewTicketsListTicketAttrs` below). -/
structure TicketRow extends Ticket where
  title : Option String
  category_id : Option Int
  subcategory_id : Option Int
deriving DecidableEq, Repr

/-- Field names declared by the `Ticket` dataclass in `models.py`
(lines 18-25, also the keys read by `Ticket.from_dict`). -/
def ticketDataclassFields : List String :=
  ["id", "user_id", "specialist_id", "building_id",
   "description", "cabinet", "status", "department_id"]

/-- Ticket attributes read from each ticket object by
`compose_new_tickets_list` in `main.py` (lines 360-396). -/
def composeNewTicketsListTicketAttrs : List String :=
  ["id", "user_id", "building_id", "title",
   "description", "cabinet", "category_id", "subcategory_id"]

/-! ## HTML escaping (`esc`, `main.py` lines 350-353)

`esc` is `str(value).replace("&", "&amp;").replace("<", "&lt;").replace(">", "&gt;")`.
`pyReplaceGo` models CPython `str.replace` for a non-empty needle: scan
left to right, and on a match emit the replacement and resume after the
matched span (the skip counter makes the recursion structural). -/

/-- One left-to-right `str.replace` pass; `skip` counts characters still
inside the previously matched span. -/
def pyReplaceGo (needle repl : List Char) : Nat → List Char → List Char
  | _, [] => []
  | Nat.succ k, _ :: rest => pyReplaceGo needle repl k rest
  | 0, c :: rest =>
    if !needle.isEmpty && needle.isPrefixOf (c :: rest) then
      repl ++ pyReplaceGo needle repl (needle.length - 1) rest
    else
      c :: pyReplaceGo needle repl 0 rest

/-- Python `s.replace(needle, repl)` for the non-empty needles used by `esc`. -/
def pyReplace (s needle repl : List Char) : List Char :=
  pyReplaceGo needle repl 0 s

/-- `esc` from `main.py` (defined identically at lines 350-353 and 458-461):
three sequential single-character replacements, ampersand first. -/
def esc (value : String) : String :=
  (pyReplace (pyReplace (pyReplace value.toList
      ['&'] "&amp;".toList)
      ['<'] "&lt;".toList)
      ['>'] "&gt;".toList).asString

/-- The intended per-character expansion of `esc`. -/
def escChar (c : Char) : List Char :=
  if c = '&' then "&amp;".toList
  else if c = '<' then "&lt;".toList
  else if c = '>' then "&gt;".toList
  else [c]

/-! ## Chat registry (`main.py` lines 49-90)

The registry is the in-memory set `tracked_chat_ids` plus the JSON file
`chat_ids.json`. `save_chat_ids` overwrites the file with the in-memory
set (an IO failure there is only logged; the model takes the write to
succeed). `writes` counts calls to `save_chat_ids`. -/

structure RegistryState where
  mem : Finset Int
  disk : Finset Int
  writes : Nat
deriving DecidableEq

/-- States the `chat_ids.json` file can be in when `load_chat_ids` runs:
absent; present but raising on open/read/parse; a parsed JSON object
without the `chat_ids` key; a parsed object whose `chat_ids` key holds a
list of integers. -/
inductive ChatIdsFile where
  | missing
  | unreadable
  | parsedNoKey
  | parsedKey (ids : List Int)
deriving DecidableEq

/-- `CHAT_IDS_FILE.exists()`. -/
def fileExists : ChatIdsFile → Bool
  | ChatIdsFile.missing => false
  | _ => true

/-- Opening, reading and JSON-parsing the file, then `data.get("chat_ids", [])`:
an exception anywhere in the `try` body is modelled as `Except.error`. -/
def readAndParse : ChatIdsFile → Except String (List Int)
  | ChatIdsFile.missing => Except.error "FileNotFoundError"
  | ChatIdsFile.unreadable => Except.error "json.JSONDecodeError"
  | ChatIdsFile.parsedNoKey => Except.ok []
  | ChatIdsFile.parsedKey ids => Except.ok ids

/-- `load_chat_ids` (`main.py` lines 52-62): if the file exists, try to
read and parse it and return `set(data.get("chat_ids", []))`, returning
the empty set on any exception; if it does not exist, return the empty
set. -/
def load_chat_ids (f : ChatIdsFile) : Finset Int :=
  if fileExists f then
    match readAndParse f with
    | Except.ok ids => ids.toFinset
    | Except.error _ => ∅
  else ∅

/-- `track_chat_id` (`main.py` lines 84-90): if the id is not tracked,
add it to the in-memory set and persist via `save_chat_ids`; otherwise do
nothing. -/
def track_chat_id (s : RegistryState) (chat_id : Int) : RegistryState :=
  if chat_id ∈ s.mem then s
  else
    { mem := insert chat_id s.mem
      disk := insert chat_id s.mem
      writes := s.writes + 1 }

/-! ## Scheduled broadcast (`send_new_tickets_job`, `main.py` lines 710-762) -/

/-- Outcome of one `context.bot.send_message` call: success, a
`TelegramError` carrying its message text, or some other exception. -/
inductive SendResult where
  | success
  | telegramError (msg : String)
  | otherError
deriving DecidableEq

/-- Python `needle in haystack` on strings, over character lists. -/
def listHasInfix (haystack needle : List Char) : Bool :=
  match haystack with
  | [] => needle.isEmpty
  | _ :: rest => needle.isPrefixOf haystack || listHasInfix rest needle

/-- Python `str.lower()` (sufficient for the ASCII needles tested). -/
def pyLower (s : String) : String :=
  (s.toList.map Char.toLower).asString

/-- The permanent-failure classifier of `send_new_tickets_job`
(lines 743-749): the lowercased error message contains
`"chat not found"`, `"bot was blocked"` or `"unauthorized"`. -/
def isPermanentSendError (msg : String) : Bool :=
  let m := (pyLower msg).toList
  listHasInfix m "chat not found".toList
    || listHasInfix m "bot was blocked".toList
    || listHasInfix m "unauthorized".toList

/-- A send outcome that triggers registry pruning: a `TelegramError`
whose message the classifier marks permanent. -/
def isPermFail (r : SendResult) : Bool :=
  match r with
  | SendResult.telegramError msg => isPermanentSendError msg
  | _ => false

/-- State threaded through the per-chat send loop: the in-memory
registry, the persisted registry, the two counters, and the attempts
made (chat id paired with the digest text sent to it). -/
structure JobState where
  registry : Finset Int
  disk : Finset Int
  successful : Nat
  failed : Nat
  attempts : List (Int × String)
deriving DecidableEq

/-- One iteration of the send loop (lines 728-759): attempt the send;
on success bump `successful_sends`; on a permanent `TelegramError`
discard the chat id and persist the shrunken registry; on any other
failure only log. -/
def processChat (send : Int → SendResult) (digest : String)
    (s : JobState) (chat_id : Int) : JobState :=
  let s := { s with attempts := s.attempts ++ [(chat_id, digest)] }
  match send chat_id with
  | SendResult.success => { s with successful := s.successful + 1 }
  | SendResult.telegramError msg =>
    if isPermanentSendError msg then
      let pruned := s.registry.erase chat_id
      { s with registry := pruned, disk := pruned, failed := s.failed + 1 }
    else { s with failed := s.failed + 1 }
  | SendResult.otherError => { s with failed := s.failed + 1 }

/-- `send_new_tickets_job` (lines 710-762): reload the registry from the
file (`loaded` lists the loaded ids); if empty, skip; otherwise compose
the digest once and iterate over a copy of the loaded registry. `send`
gives each chat's delivery outcome. -/
def send_new_tickets_job (send : Int → SendResult) (digest : String)
    (loaded : List Int) : JobState :=
  let init : JobState := ⟨loaded.toFinset, loaded.toFinset, 0, 0, []⟩
  if loaded.isEmpty then init
  else loaded.foldl (processChat send digest) init

/-! ## Summary composition (`compose_new_tickets_summary`, `main.py` lines 191-294) -/

/-- The status fallback at lines 200-209: fetch `"available"` tickets;
only if that list is empty (`if not new_rows`) fetch `"new"` tickets and
use them instead. `fetch` maps a status string to the rows the ticket
service returns for it. -/
def summaryNewRows (fetch : String → List Ticket) : List Ticket :=
  let new_rows := fetch "available"
  if new_rows.isEmpty then fetch "new" else new_rows

/-- `total_count = len(new_rows) if new_rows else 0` (line 221). -/
def summaryTotalCount (rows : List Ticket) : Nat :=
  if rows.isEmpty then 0 else rows.length

/-- The per-building grouping key (lines 228-231): the building id as a
string, or the sentinel `"не указан"` when it is `None`. -/
def buildingKey (t : Ticket) : String :=
  match t.building_id with
  | none => "не указан"
  | some n => toString n

/-- The `per_building` counting dict built at lines 225-232. -/
def perBuilding (rows : List Ticket) : List (String × Nat) :=
  rows.foldl (fun d t => pyDictIncr d (buildingKey t)) []

/-- Sum of the values of a counting dict. -/
def sumCounts {α : Type} (d : List (α × Nat)) : Nat :=
  (d.map Prod.snd).sum

/-- A Python value used as the second component of the taken-section
grouping key (line 273): either the raw integer building id or the
string sentinel `"не указан"`. -/
inductive PyKey where
  | intK (n : Int)
  | strK (s : String)
deriving DecidableEq, Repr

/-- Python `<` between two such values: ints and strings compare among
themselves; an int against a str raises `TypeError` (`none`). -/
def pyKeyCmp : PyKey → PyKey → Option Ordering
  | PyKey.intK a, PyKey.intK b => some (compare a b)
  | PyKey.strK a, PyKey.strK b => some (compare a b)
  | _, _ => none

/-- Python comparison of two `(specialist_id, building_key)` tuples:
compare the first components; only on a tie compare the second, which
may raise. -/
def pairCmp (a b : Int × PyKey) : Option Ordering :=
  match compare a.1 b.1 with
  | Ordering.eq => pyKeyCmp a.2 b.2
  | o => some o

/-- `item_a < item_b` for two entries of `per_specialist_building.items()`;
keys are distinct, so the counts are never compared. -/
def pyLtItem (a b : (Int × PyKey) × Nat) : Option Bool :=
  (pairCmp a.1 b.1).map (fun o => o = Ordering.lt)

/-- Insertion step of a comparison sort whose comparator may raise. -/
def insertSortedE (x : (Int × PyKey) × Nat) :
    List ((Int × PyKey) × Nat) → Option (List ((Int × PyKey) × Nat))
  | [] => some [x]
  | y :: ys =>
    match pyLtItem x y with
    | none => none
    | some true => some (x :: y :: ys)
    | some false =>
      match insertSortedE x ys with
      | none => none
      | some r => some (y :: r)

/-- Python `sorted(...)` over the grouped items, modelled as an
insertion sort in which any comparison between an int building id and
the string sentinel raises `TypeError` (`none`). On two elements every
comparison sort, CPython's included, performs exactly that comparison. -/
def pySortedE : List ((Int × PyKey) × Nat) → Option (List ((Int × PyKey) × Nat))
  | [] => some []
  | x :: xs =>
    match pySortedE xs with
    | none => none
    | some r => insertSortedE x r

/-- The taken-ticket grouping dict of lines 262-275: skip rows whose
`specialist_id` is `None`; key the rest by
`(specialist_id, building_id if building_id is not None else "не указан")`. -/
def perSpecialistBuilding (taken_rows : List Ticket) : List ((Int × PyKey) × Nat) :=
  taken_rows.foldl
    (fun d t =>
      match t.specialist_id with
      | none => d
      | some sid =>
        let bkey := match t.building_id with
          | some b => PyKey.intK b
          | none => PyKey.strK "не указан"
        pyDictIncr d (sid, bkey))
    []

/-- The in-progress section lines of the summary (lines 261-292): group,
then — when any specialist was seen — sort the groups and emit one line
per group, resolving the specialist via the users dict (`full_name`,
falling back to `"ID {sid}"`) and the building via the descriptions dict
keyed by `str(building_id)`. `none` models the `sorted` call raising
`TypeError`. The `if specialist_ids:` guard holds exactly when the
grouping dict is non-empty. -/
def summaryTakenLines (taken_rows : List Ticket)
    (users_dict : List (Int × User))
    (buildings_dict : List (String × String)) : Option (List String) :=
  let psb := perSpecialistBuilding taken_rows
  if psb.isEmpty then some []
  else
    match pySortedE psb with
    | none => none
    | some sortedItems =>
      some (sortedItems.map (fun item =>
        let sid := item.1.1
        let bkey := item.1.2
        let count := item.2
        let full_name :=
          match pyGet users_dict sid with
          | some u => u.full_name
          | none => "ID " ++ toString sid
        let bstr := match bkey with
          | PyKey.intK n => toString n
          | PyKey.strK s => s
        let building_desc := pyGetD buildings_dict bstr bstr
        "👷‍♂️ " ++ full_name ++ " — (" ++ building_desc ++ ") — *"
          ++ toString count ++ "*"))

/-! ## Itemized composers (`main.py` lines 315-415 and 418-529) -/

/-- `{cat.id: cat.name_ru or f"ID {cat.id}" for cat in categories}`
(line 341). -/
def categoriesDict (categories : List Category) : List (Int × String) :=
  categories.foldl
    (fun d c => pyDictInsert d c.id (pyOrS c.name_ru ("ID " ++ toString c.id)))
    []

/-- The subcategory dict built at lines 344-348: for each category,
fetch its subcategories (`subcatsOf`) and record
`subcat.name_ru or f"ID {subcat.id}"` under `subcat.id`. -/
def subcategoriesDict (categories : List Category)
    (subcatsOf : Int → List SubCategory) : List (Int × String) :=
  categories.foldl
    (fun d c =>
      (subcatsOf c.id).foldl
        (fun d2 sc => pyDictInsert d2 sc.id (pyOrS sc.name_ru ("ID " ++ toString sc.id)))
        d)
    []

/-- The applicant-name resolution of both composers (lines 369-376 and
478-485): `if user_id:` is Python truthiness (`None` and `0` are falsy);
a truthy id is looked up, with `"ID {user_id}"` as fallback when the row
is absent. -/
def applicantName (users_dict : List (Int × User)) (user_id : Option Int) : String :=
  match user_id with
  | some uid =>
    if uid ≠ 0 then
      match pyGet users_dict uid with
      | some u => u.full_name
      | none => "ID " ++ toString uid
    else "не указан"
  | none => "не указан"

/-- Category/subcategory name resolution (lines 379-392): a truthy id is
looked up with `"ID {id}"` as default; a falsy one renders the sentinel. -/
def idNameLookup (d : List (Int × String)) (idOpt : Option Int) (sentinel : String) : String :=
  match idOpt with
  | some i => if i ≠ 0 then pyGetD d i ("ID " ++ toString i) else sentinel
  | none => sentinel

/-- Building-name resolution (lines 395-398 and 507-511):
`buildings_dict.get(str(building_id), str(building_id))` for a truthy
id, else the sentinel. -/
def buildingNameLookup (buildings_dict : List (String × String))
    (building_id : Option Int) : String :=
  match building_id with
  | some bid =>
    if bid ≠ 0 then pyGetD buildings_dict (toString bid) (toString bid)
    else "не указан"
  | none => "не указан"

/-- One `<blockquote>` block of `compose_new_tickets_list`
(lines 360-412). -/
def renderNewBlock (users_dict : List (Int × User))
    (buildings_dict : List (String × String))
    (cats_dict subcats_dict : List (Int × String)) (t : TicketRow) : String :=
  let phone := pyOrS t.title ""
  let description := pyOrS t.description "не указано"
  let cabinet := pyOrS t.cabinet "не указан"
  let applicant_name := applicantName users_dict t.user_id
  let category_name := idNameLookup cats_dict t.category_id "не указана"
  let subcategory_name := idNameLookup subcats_dict t.subcategory_id "не указана"
  let building_name := buildingNameLookup buildings_dict t.building_id
  "<blockquote>" ++ String.intercalate "\n"
    ["Заявка №" ++ esc (toString t.id),
     "Заявитель: " ++ esc applicant_name,
     "Категория: " ++ esc category_name,
     "Подкатегория: " ++ esc subcategory_name,
     "Контакты: " ++ esc phone,
     "Описание: " ++ esc description,
     "корпус: " ++ esc building_name,
     "Кабинет: " ++ esc cabinet] ++ "</blockquote>"

/-- `compose_new_tickets_list` (lines 315-415) as a function of the
fetched data: the `"new"` rows, the users fetched for their requester
ids, the building descriptions, and the department's categories with a
per-category subcategory fetch. Zero rows short-circuit to the literal
zero-count line before any lookup. -/
def compose_new_tickets_list (new_rows : List TicketRow)
    (users_dict : List (Int × User))
    (buildings_dict : List (String × String))
    (categories : List Category)
    (subcatsOf : Int → List SubCategory) : String :=
  if new_rows.isEmpty then "всего новых заявок: 0"
  else
    let cats_dict := categoriesDict categories
    let subcats_dict := subcategoriesDict categories subcatsOf
    let blocks := new_rows.map
      (renderNewBlock users_dict buildings_dict cats_dict subcats_dict)
    String.intercalate "\n"
      (("всего новых заявок: " ++ toString new_rows.length) :: "" ::
        blocks.flatMap (fun b => [b, ""]))

/-- The specialist-name expression of `compose_taken_tickets_list`
(lines 487-489):
`users_dict.get(specialist_id).full_name if specialist_id else "не указан"`.
A falsy `specialist_id` (`None` or `0`) yields the sentinel; a truthy one
dereferences the lookup result with **no** fallback, so a missing row is
an `AttributeError` (`none`). -/
def specialistNameE (users_dict : List (Int × User))
    (specialist_id : Option Int) : Option String :=
  match specialist_id with
  | some sid =>
    if sid ≠ 0 then (pyGet users_dict sid).map User.full_name
    else some "не указан"
  | none => some "не указан"

/-- One `<blockquote>` block of `compose_taken_tickets_list`
(lines 468-527); `none` models the composer raising on the specialist
lookup. -/
def renderTakenBlock (users_dict : List (Int × User))
    (buildings_dict : List (String × String))
    (cats_dict subcats_dict : List (Int × String)) (t : TicketRow) : Option String :=
  let phone := pyOrS t.title ""
  let description := pyOrS t.description "не указано"
  let cabinet := pyOrS t.cabinet "не указан"
  let applicant_name := applicantName users_dict t.user_id
  let category_name := idNameLookup cats_dict t.category_id "не указана"
  let subcategory_name := idNameLookup subcats_dict t.subcategory_id "не указана"
  let building_name := buildingNameLookup buildings_dict t.building_id
  match specialistNameE users_dict t.specialist_id with
  | none => none
  | some specialist_name =>
    some ("<blockquote>" ++ String.intercalate "\n"
      ["Заявка №" ++ esc (toString t.id),
       "Заявитель: " ++ esc applicant_name,
       "Категория: " ++ esc category_name,
       "Подкатегория: " ++ esc subcategory_name,
       "Контакты: " ++ esc phone,
       "Описание: " ++ esc description,
       "корпус: " ++ esc building_name,
       "Кабинет: " ++ esc cabinet,
       "Исполнитель: " ++ esc specialist_name] ++ "</blockquote>")

/-- The per-ticket loop of `compose_taken_tickets_list`: render every
block, failing as soon as any block raises. -/
def renderTakenBlocks (users_dict : List (Int × User))
    (buildings_dict : List (String × String))
    (cats_dict subcats_dict : List (Int × String)) :
    List TicketRow → Option (List String)
  | [] => some []
  | t :: rest =>
    match renderTakenBlock users_dict buildings_dict cats_dict subcats_dict t,
        renderTakenBlocks users_dict buildings_dict cats_dict subcats_dict rest with
    | some b, some bs => some (b :: bs)
    | _, _ => none

/-- `compose_taken_tickets_list` (lines 418-529) as a function of the
fetched data; `none` models the composer raising `AttributeError` on a
truthy `specialist_id` absent from the users dict. Zero rows
short-circuit to the literal zero-count line. -/
def compose_taken_tickets_list (taken_rows : List TicketRow)
    (users_dict : List (Int × User))
    (buildings_dict : List (String × String))
    (categories : List Category)
    (subcatsOf : Int → List SubCategory) : Option String :=
  if taken_rows.isEmpty then some "всего заявок в работе: 0"
  else
    let cats_dict := categoriesDict categories
    let subcats_dict := subcategoriesDict categories subcatsOf
    match renderTakenBlocks users_dict buildings_dict cats_dict subcats_dict taken_rows with
    | none => none
    | some blocks =>
      some (String.intercalate "\n"
        (("всего заявок в работе: " ++ toString taken_rows.length) :: "" ::
          blocks.flatMap (fun b => [b, ""])))

/-! ## Auxiliary predicates and concrete scenarios -/

/-- A successful delivery. -/
def isSuccess (r : SendResult) : Bool :=
  match r with
  | SendResult.success => true
  | _ => false

/-- The scheduled-send scenario of the spec: registry `{1, 2, 3}`,
sending to `2` raises a `TelegramError` whose message is
`"Chat not found"`, sends to `1` and `3` succeed. -/
def scenarioSend : Int → SendResult :=
  fun c => if c = 2 then SendResult.telegramError "Chat not found" else SendResult.success

/-- A ticket-service fetch where status `"available"` has no rows and
status `"new"` has two rows. -/
def fetchScenario : String → List Ticket :=
  fun status =>
    if status = "new" then
      [⟨1, none, none, none, none, none, "new", 33⟩,
       ⟨2, none, none, none, none, none, "new", 33⟩]
    else []

/-- A taken ticket of specialist 5 in building 3. -/
def takenMixedA : Ticket := ⟨101, none, some 5, some 3, none, none, "taken", 33⟩

/-- A taken ticket of the same specialist 5 with no building. -/
def takenMixedB : Ticket := ⟨102, none, some 5, none, none, none, "taken", 33⟩

/-- A taken ticket row whose `specialist_id` is the non-null but falsy
value `0`. -/
def takenZeroSpecialistRow : TicketRow :=
  ⟨⟨201, none, some 0, none, none, none, "taken", 33⟩, none, none, none⟩

/-- A taken ticket row whose `specialist_id` is `5`. -/
def takenSpecialistFiveRow : TicketRow :=
  ⟨⟨202, none, some 5, none, none, none, "taken", 33⟩, none, none, none⟩

/-- The precondition claimed for `compose_taken_tickets_list`: every
non-null `specialist_id` among the rows has a row in the users lookup. -/
def allNonNullSpecialistsResolvable (rows : List TicketRow)
    (users_dict : List (Int × User)) : Prop :=
  ∀ t ∈ rows, ∀ sid : Int, t.specialist_id = some sid →
    (pyGet users_dict sid).isSome = true

/-! ## Theorems -/

/-- C1: the itemized composers read the `title`, `category_id` and
`subcategory_id` attributes of every rendered ticket, but the `Ticket`
dataclass of `models.py` declares none of them, so rendering any
fetched ticket raises `AttributeError` instead of producing the
fixed-field block the claim describes. -/
theorem compose_reads_fields_missing_from_ticket_dataclass :
    "title" ∈ composeNewTicketsListTicketAttrs ∧
    "title" ∉ ticketDataclassFields ∧
    "category_id" ∈ composeNewTicketsListTicketAttrs ∧
    "category_id" ∉ ticketDataclassFields ∧
    "subcategory_id" ∈ composeNewTicketsListTicketAttrs ∧
    "subcategory_id" ∉ ticketDataclassFields := by
  decide

/-- C7: with zero fetched tickets each itemized composer returns exactly
its literal zero-count line — no ticket blocks, never an empty body. -/
theorem compose_lists_zero_tickets (users_dict : List (Int × User))
    (buildings_dict : List (String × String)) (categories : List Category)
    (subcatsOf : Int → List SubCategory) :
    compose_new_tickets_list [] users_dict buildings_dict categories subcatsOf
        = "всего новых заявок: 0" ∧
    compose_taken_tickets_list [] users_dict buildings_dict categories subcatsOf
        = some "всего заявок в работе: 0" :=
  ⟨rfl, rfl⟩

/-- C9: on two taken tickets of the same specialist, one with a numeric
building id and one with a null building id, the summary's in-progress
section does not produce sorted group lines: `sorted` compares the int
building id with the str sentinel and raises `TypeError` (modelled as
`none`). -/
theorem summary_taken_sort_raises_on_mixed_building_keys :
    summaryTakenLines [takenMixedA, takenMixedB] [] [] = none := by
  decide

/-- C6: with the in-memory registry persisted (`disk = mem`),
`track_chat_id` leaves the registry at `S ∪ \x7bn\x7d` both in memory and
on disk; when `n` is already tracked the call is a no-op (same state, no
write), making `track_chat_id` idempotent. -/
theorem track_chat_id_spec (s : RegistryState) (n : Int) (h : s.disk = s.mem) :
    (track_chat_id s n).mem = insert n s.mem ∧
    (track_chat_id s n).disk = insert n s.mem ∧
    (n ∈ s.mem → track_chat_id s n = s) ∧
    track_chat_id (track_chat_id s n) n = track_chat_id s n := by
  by_cases hm : n ∈ s.mem
  · simp [track_chat_id, hm, h, Finset.insert_eq_self.mpr hm]
  · refine ⟨?_, ?_, ?_, ?_⟩
    · simp [track_chat_id, hm]
    · simp [track_chat_id, hm]
    · intro hc; exact absurd hc hm
    · have h1 : track_chat_id s n =
          ⟨insert n s.mem, insert n s.mem, s.writes + 1⟩ := by
        simp [track_chat_id, hm]
      rw [h1]
      simp [track_chat_id, Finset.mem_insert_self]

/-- Witness for C6: `track(42)` on the empty persisted registry yields
`\x7b42\x7d` in memory and on disk, and a second `track(42)` changes
nothing. -/
theorem track_chat_id_witness :
    (track_chat_id ⟨∅, ∅, 0⟩ 42).mem = insert 42 (∅ : Finset Int) ∧
    (track_chat_id ⟨∅, ∅, 0⟩ 42).disk = insert 42 (∅ : Finset Int) ∧
    track_chat_id (track_chat_id ⟨∅, ∅, 0⟩ 42) 42 = track_chat_id ⟨∅, ∅, 0⟩ 42 := by
  have h := track_chat_id_spec ⟨∅, ∅, 0⟩ 42 rfl
  exact ⟨h.1, h.2.1, h.2.2.2⟩

/-- C8: `load_chat_ids` returns the set of ids stored under the
`chat_ids` key when the file exists and parses (empty when the key is
absent), and returns the empty set — raising nothing — when the file is
missing or unreadable/malformed. -/
theorem load_chat_ids_spec (f : ChatIdsFile) :
    (∀ ids : List Int, f = ChatIdsFile.parsedKey ids →
        load_chat_ids f = ids.toFinset) ∧
    ((f = ChatIdsFile.missing ∨ f = ChatIdsFile.unreadable ∨
        f = ChatIdsFile.parsedNoKey) → load_chat_ids f = ∅) := by
  cases f <;> simp [load_chat_ids, fileExists, readAndParse]

/-- Witness for C8: a parsed file holding `[3, 1, 3]` loads as the set
`\x7b3, 1\x7d`; an unreadable file loads as the empty set. -/
theorem load_chat_ids_witness :
    load_chat_ids (ChatIdsFile.parsedKey [3, 1, 3]) = ({3, 1} : Finset Int) ∧
    load_chat_ids ChatIdsFile.unreadable = ∅ := by
  constructor
  · rw [(load_chat_ids_spec _).1 [3, 1, 3] rfl]; decide
  · exact (load_chat_ids_spec _).2 (Or.inr (Or.inl rfl))

/-- C3: the summary's new-ticket bucket is the `"available"` fetch
result, replaced by the `"new"` fetch result exactly when the
`"available"` result is empty. -/
theorem summaryNewRows_spec (fetch : String → List Ticket) :
    (fetch "available" = [] → summaryNewRows fetch = fetch "new") ∧
    (fetch "available" ≠ [] → summaryNewRows fetch = fetch "available") := by
  constructor <;> intro h <;> simp [summaryNewRows, h]

theorem pyGet_insert {α β : Type} [DecidableEq α] (d : List (α × β)) (k k' : α) (v : β) :
    pyGet (pyDictInsert d k v) k' = if k' = k then some v else pyGet d k' := by
  induction d with
  | nil =>
    by_cases h : k' = k
    · subst h; simp [pyDictInsert, pyGet]
    · simp [pyDictInsert, pyGet, h, Ne.symm h]
  | cons hd tl ih =>
    obtain ⟨k0, v0⟩ := hd
    by_cases h0 : k0 = k
    · subst h0
      by_cases h : k' = k0
      · subst h; simp [pyDictInsert, pyGet]
      · simp [pyDictInsert, pyGet, h, Ne.symm h]
    · by_cases h1 : k0 = k'
      · subst h1
        simp [pyDictInsert, pyGet, h0, Ne.symm h0]
      · simp [pyDictInsert, pyGet, h0, h1, ih]

theorem sumCounts_incr {α : Type} [DecidableEq α] (d : List (α × Nat)) (k : α) :
    sumCounts (pyDictIncr d k) = sumCounts d + 1 := by
  induction d with
  | nil => simp [pyDictIncr, pyDictInsert, pyGetD, pyGet, sumCounts]
  | cons hd tl ih =>
    obtain ⟨k0, v0⟩ := hd
    by_cases h0 : k0 = k
    · subst h0
      simp [pyDictIncr, pyDictInsert, pyGetD, pyGet, sumCounts]
      omega
    · simp only [pyDictIncr, pyGetD, pyGet, pyDictInsert, if_neg h0, sumCounts,
        List.map_cons, List.sum_cons] at ih ⊢
      omega

theorem getD_incr {α : Type} [DecidableEq α] (d : List (α × Nat)) (k k' : α) :
    pyGetD (pyDictIncr d k) k' 0 = pyGetD d k' 0 + (if k' = k then 1 else 0) := by
  unfold pyDictIncr
  by_cases h : k' = k
  · subst h
    simp [pyGetD, pyGet_insert]
  · simp [pyGetD, pyGet_insert, h]

theorem mem_keys_insert {α β : Type} [DecidableEq α] (d : List (α × β)) (k a : α) (v : β) :
    a ∈ (pyDictInsert d k v).map Prod.fst ↔ a = k ∨ a ∈ d.map Prod.fst := by
  induction d with
  | nil => simp [pyDictInsert]
  | cons hd tl ih =>
    obtain ⟨k0, v0⟩ := hd
    by_cases h0 : k0 = k
    · subst h0
      simp [pyDictInsert]
      try tauto
    · simp only [pyDictInsert, if_neg h0, List.map_cons, List.mem_cons, ih]
      try tauto

theorem nodup_keys_insert {α β : Type} [DecidableEq α] (d : List (α × β)) (k : α) (v : β)
    (h : (d.map Prod.fst).Nodup) : ((pyDictInsert d k v).map Prod.fst).Nodup := by
  induction d with
  | nil => simp [pyDictInsert]
  | cons hd tl ih =>
    obtain ⟨k0, v0⟩ := hd
    simp only [List.map_cons, List.nodup_cons] at h
    by_cases h0 : k0 = k
    · subst h0
      simpa [pyDictInsert, List.nodup_cons] using h
    · simp only [pyDictInsert, if_neg h0, List.map_cons, List.nodup_cons]
      refine ⟨?_, ih h.2⟩
      rw [mem_keys_insert]
      rintro (rfl | hmem)
      · exact h0 rfl
      · exact h.1 hmem


theorem foldIncr_sum {α : Type} [DecidableEq α] (key : Ticket → α) :
    ∀ (rows : List Ticket) (d : List (α × Nat)),
      sumCounts (rows.foldl (fun d2 t => pyDictIncr d2 (key t)) d)
        = sumCounts d + rows.length
  | [], d => by simp
  | t :: rest, d => by
    simp only [List.foldl_cons, List.length_cons]
    rw [foldIncr_sum key rest (pyDictIncr d (key t)), sumCounts_incr]
    omega

theorem foldIncr_getD {α : Type} [DecidableEq α] (key : Ticket → α) :
    ∀ (rows : List Ticket) (d : List (α × Nat)) (k : α),
      pyGetD (rows.foldl (fun d2 t => pyDictIncr d2 (key t)) d) k 0
        = pyGetD d k 0 + (rows.filter (fun t => key t == k)).length
  | [], d, k => by simp
  | t :: rest, d, k => by
    simp only [List.foldl_cons]
    rw [foldIncr_getD key rest (pyDictIncr d (key t)) k, getD_incr]
    by_cases h : key t = k
    · simp [List.filter_cons, h]
      omega
    · simp [List.filter_cons, h, Ne.symm h]

theorem foldIncr_nodup {α : Type} [DecidableEq α] (key : Ticket → α) :
    ∀ (rows : List Ticket) (d : List (α × Nat)),
      (d.map Prod.fst).Nodup →
      ((rows.foldl (fun d2 t => pyDictIncr d2 (key t)) d).map Prod.fst).Nodup
  | [], d, h => h
  | t :: rest, d, h => by
    simp only [List.foldl_cons]
    exact foldIncr_nodup key rest _ (nodup_keys_insert d (key t) _ h)

/-- C4: the summary's per-building grouping is a partition of the rows:
the counts sum to the row total, each key's count is exactly the number
of rows with that building key (null building ids land in the sentinel
bucket and nowhere else), the keys are pairwise distinct, and the
total-count header equals the row count. -/
theorem per_building_partition (rows : List Ticket) :
    sumCounts (perBuilding rows) = rows.length ∧
    (∀ k : String, pyGetD (perBuilding rows) k 0
        = (rows.filter (fun t => buildingKey t == k)).length) ∧
    ((perBuilding rows).map Prod.fst).Nodup ∧
    summaryTotalCount rows = rows.length := by
  refine ⟨?_, ?_, ?_, ?_⟩
  · simpa [perBuilding, sumCounts] using foldIncr_sum buildingKey rows []
  · intro k
    simpa [perBuilding, pyGetD, pyGet] using foldIncr_getD buildingKey rows [] k
  · simpa [perBuilding] using foldIncr_nodup buildingKey rows [] (by simp)
  · cases rows <;> simp [summaryTotalCount]

/-- A single replacement pass with a one-character needle expands each
occurrence of that character independently. -/
theorem pyReplace_single (n : Char) (repl : List Char) (s : List Char) :
    pyReplace s [n] repl = s.flatMap (fun c => if c = n then repl else [c]) := by
  induction s with
  | nil => rfl
  | cons c rest ih =>
    unfold pyReplace at ih ⊢
    by_cases h : c = n
    · subst h
      simp [pyReplaceGo, List.isPrefixOf, ih]
    · simp [pyReplaceGo, List.isPrefixOf, h, (Ne.symm h : ¬ n = c), ih]

/-- Composing the three per-character passes — ampersand first — gives
`escChar`: no produced entity is re-escaped by a later pass. -/
theorem escChar_decomp (c : Char) :
    (if c = '&' then "&amp;".toList else [c]).flatMap
        (fun d => (if d = '<' then "&lt;".toList else [d]).flatMap
          (fun e => if e = '>' then "&gt;".toList else [e])) = escChar c := by
  by_cases h1 : c = '&'
  · subst h1; decide
  · by_cases h2 : c = '<'
    · subst h2; decide
    · by_cases h3 : c = '>'
      · subst h3; decide
      · simp [escChar, h1, h2, h3]

/-- C5: `esc` rewrites every string by replacing exactly the characters
`&`, `<`, `>` with `&amp;`, `&lt;`, `&gt;` and leaving every other
character unchanged (the character-wise expansion `escChar`), ampersands
first so no produced entity is re-escaped; in particular
`<script>&</script>` renders as `&lt;script&gt;&amp;&lt;/script&gt;`. -/
theorem esc_spec :
    (∀ s : String, esc s = (s.toList.flatMap escChar).asString) ∧
    esc "<script>&</script>" = "&lt;script&gt;&amp;&lt;/script&gt;" := by
  have hgen : ∀ s : String, esc s = (s.toList.flatMap escChar).asString := by
    intro s
    unfold esc
    rw [pyReplace_single, pyReplace_single, pyReplace_single]
    congr 1
    rw [List.flatMap_assoc, List.flatMap_assoc]
    congr 1
    funext c
    exact escChar_decomp c
  exact ⟨hgen, by rw [hgen]; decide⟩

/-- Witness for C3: with `"available"` returning no rows and `"new"`
returning 2 rows, the new bucket is exactly those 2 rows. -/
theorem summaryNewRows_witness :
    fetchScenario "available" = [] ∧
    summaryNewRows fetchScenario = fetchScenario "new" ∧
    (summaryNewRows fetchScenario).length = 2 := by
  have h := (summaryNewRows_spec fetchScenario).1 (by decide)
  exact ⟨by decide, h, by rw [h]; decide⟩

theorem processChat_attempts (send : Int → SendResult) (digest : String)
    (s : JobState) (c : Int) :
    (processChat send digest s c).attempts = s.attempts ++ [(c, digest)] := by
  unfold processChat
  cases send c <;> simp <;> split <;> rfl

theorem processChat_registry (send : Int → SendResult) (digest : String)
    (s : JobState) (c : Int) :
    (processChat send digest s c).registry =
      if isPermFail (send c) then s.registry.erase c else s.registry := by
  unfold processChat isPermFail
  cases send c <;> simp <;> split <;> rfl

theorem processChat_disk (send : Int → SendResult) (digest : String)
    (s : JobState) (c : Int) :
    (processChat send digest s c).disk =
      if isPermFail (send c) then s.registry.erase c else s.disk := by
  unfold processChat isPermFail
  cases send c <;> simp <;> split <;> rfl

theorem processChat_successful (send : Int → SendResult) (digest : String)
    (s : JobState) (c : Int) :
    (processChat send digest s c).successful =
      s.successful + (if isSuccess (send c) then 1 else 0) := by
  unfold processChat isSuccess
  cases send c <;> simp <;> split <;> rfl

theorem foldSend_attempts (send : Int → SendResult) (digest : String) :
    ∀ (l : List Int) (s : JobState),
      (l.foldl (processChat send digest) s).attempts
        = s.attempts ++ l.map (fun c => (c, digest))
  | [], s => by simp
  | c :: rest, s => by
    simp only [List.foldl_cons, List.map_cons]
    rw [foldSend_attempts send digest rest _, processChat_attempts]
    simp

theorem foldSend_registry (send : Int → SendResult) (digest : String) :
    ∀ (l : List Int) (s : JobState),
      (l.foldl (processChat send digest) s).registry
        = s.registry \ (l.filter (fun c => isPermFail (send c))).toFinset
  | [], s => by simp
  | c :: rest, s => by
    simp only [List.foldl_cons]
    rw [foldSend_registry send digest rest _, processChat_registry]
    by_cases h : isPermFail (send c)
    · simp only [h, if_true, List.filter_cons, List.toFinset_cons]
      ext x
      simp [Finset.mem_sdiff, Finset.mem_erase]
      tauto
    · simp [h, List.filter_cons]

theorem foldSend_disk (send : Int → SendResult) (digest : String) :
    ∀ (l : List Int) (s : JobState), s.disk = s.registry →
      (l.foldl (processChat send digest) s).disk
        = (l.foldl (processChat send digest) s).registry
  | [], s, h => h
  | c :: rest, s, h => by
    simp only [List.foldl_cons]
    refine foldSend_disk send digest rest _ ?_
    rw [processChat_disk, processChat_registry]
    by_cases hp : isPermFail (send c) <;> simp [hp, h]

theorem foldSend_successful (send : Int → SendResult) (digest : String) :
    ∀ (l : List Int) (s : JobState),
      (l.foldl (processChat send digest) s).successful
        = s.successful + (l.filter (fun c => isSuccess (send c))).length
  | [], s => by simp
  | c :: rest, s => by
    simp only [List.foldl_cons]
    rw [foldSend_successful send digest rest _, processChat_successful]
    by_cases h : isSuccess (send c) <;> simp [h, List.filter_cons] <;> omega

/-- C2: over a loaded registry each chat id gets exactly one send
attempt of the single precomposed digest; the post-condition registry
keeps exactly the ids whose send was not a permanent failure (a
`TelegramError` mentioning chat not found / bot was blocked /
unauthorized), the registry is persisted, and the success counter counts
the successful sends. -/
theorem send_new_tickets_job_spec (send : Int → SendResult) (digest : String)
    (loaded : List Int) (hnd : loaded.Nodup) :
    (send_new_tickets_job send digest loaded).attempts
        = loaded.map (fun c => (c, digest)) ∧
    ((send_new_tickets_job send digest loaded).attempts.map Prod.fst).Nodup ∧
    (send_new_tickets_job send digest loaded).registry
        = (loaded.filter (fun c => !isPermFail (send c))).toFinset ∧
    (send_new_tickets_job send digest loaded).disk
        = (send_new_tickets_job send digest loaded).registry ∧
    (send_new_tickets_job send digest loaded).successful
        = (loaded.filter (fun c => isSuccess (send c))).length := by
  unfold send_new_tickets_job
  by_cases hl : loaded.isEmpty
  · rw [List.isEmpty_iff] at hl
    subst hl
    simp
  · simp only [hl, Bool.false_eq_true, if_false]
    have hatt := foldSend_attempts send digest loaded
      (⟨loaded.toFinset, loaded.toFinset, 0, 0, []⟩ : JobState)
    have hreg := foldSend_registry send digest loaded
      (⟨loaded.toFinset, loaded.toFinset, 0, 0, []⟩ : JobState)
    have hdisk := foldSend_disk send digest loaded
      (⟨loaded.toFinset, loaded.toFinset, 0, 0, []⟩ : JobState) rfl
    have hsucc := foldSend_successful send digest loaded
      (⟨loaded.toFinset, loaded.toFinset, 0, 0, []⟩ : JobState)
    simp only [List.nil_append] at hatt hreg hdisk hsucc
    refine ⟨by simpa using hatt, ?_, ?_, hdisk, by simpa using hsucc⟩
    · rw [hatt, List.map_map]
      have hid : (Prod.fst ∘ fun c : Int => (c, digest)) = id := rfl
      rw [hid, List.map_id]
      exact hnd
    · rw [hreg]
      ext x
      simp only [Finset.mem_sdiff, List.mem_toFinset, List.mem_filter,
        Bool.not_eq_true']
      constructor
      · rintro ⟨hx, hnx⟩
        refine ⟨hx, ?_⟩
        by_contra hc
        exact hnx ⟨hx, by revert hc; cases isPermFail (send x) <;> simp⟩
      · rintro ⟨hx, hfalse⟩
        exact ⟨hx, fun hc => by rw [hfalse] at hc; exact Bool.false_ne_true hc.2⟩

/-- Witness for C2: over registry `[1, 2, 3]` where sending to `2`
raises a `TelegramError` `"Chat not found"` and sends to `1` and `3`
succeed, the final registry — in memory and on disk — is `\x7b1, 3\x7d`
and two sends succeeded. -/
theorem send_new_tickets_job_witness :
    ([1, 2, 3] : List Int).Nodup ∧
    (send_new_tickets_job scenarioSend "digest" [1, 2, 3]).registry
        = ({1, 3} : Finset Int) ∧
    (send_new_tickets_job scenarioSend "digest" [1, 2, 3]).disk
        = ({1, 3} : Finset Int) ∧
    (send_new_tickets_job scenarioSend "digest" [1, 2, 3]).successful = 2 := by
  have h := send_new_tickets_job_spec scenarioSend "digest" [1, 2, 3] (by decide)
  refine ⟨by decide, ?_, ?_, ?_⟩
  · rw [h.2.2.1]; decide
  · rw [h.2.2.2.1, h.2.2.1]; decide
  · rw [h.2.2.2.2]; decide

theorem specialistNameE_isSome (users_dict : List (Int × User)) (sidOpt : Option Int) :
    (specialistNameE users_dict sidOpt).isSome = true ↔
      (∀ sid : Int, sidOpt = some sid → sid ≠ 0 →
        (pyGet users_dict sid).isSome = true) := by
  cases sidOpt with
  | none => simp [specialistNameE]
  | some n =>
    by_cases h : n = 0
    · subst h; simp [specialistNameE]
    · simp [specialistNameE, h]

theorem renderTakenBlock_isSome (u : List (Int × User)) (b : List (String × String))
    (cd sd : List (Int × String)) (t : TicketRow) :
    (renderTakenBlock u b cd sd t).isSome = (specialistNameE u t.specialist_id).isSome := by
  unfold renderTakenBlock
  cases specialistNameE u t.specialist_id <;> rfl

theorem renderTakenBlocks_cons (u : List (Int × User)) (b : List (String × String))
    (cd sd : List (Int × String)) (t : TicketRow) (rest : List TicketRow) :
    (renderTakenBlocks u b cd sd (t :: rest)).isSome
      = ((renderTakenBlock u b cd sd t).isSome
          && (renderTakenBlocks u b cd sd rest).isSome) := by
  simp only [renderTakenBlocks]
  cases renderTakenBlock u b cd sd t <;> cases renderTakenBlocks u b cd sd rest <;> rfl

theorem renderTakenBlocks_isSome (u : List (Int × User)) (b : List (String × String))
    (cd sd : List (Int × String)) :
    ∀ rows : List TicketRow,
      (renderTakenBlocks u b cd sd rows).isSome = true ↔
        ∀ t ∈ rows, (renderTakenBlock u b cd sd t).isSome = true
  | [] => by simp [renderTakenBlocks]
  | t :: rest => by
    rw [renderTakenBlocks_cons, Bool.and_eq_true,
      renderTakenBlocks_isSome u b cd sd rest]
    simp

/-- C10 (amended): `compose_taken_tickets_list` returns a digest string
exactly when every truthy (non-null and nonzero) `specialist_id` among
the fetched taken tickets has a matching row in the users lookup: the
specialist name, unlike the requester name, has no `"ID "` fallback, so
a truthy specialist id absent from the users map reaches the error
branch instead of rendering a fallback name, while a null — or zero,
by Python truthiness — specialist id renders the sentinel. -/
theorem compose_taken_list_total_iff (taken_rows : List TicketRow)
    (users_dict : List (Int × User)) (buildings_dict : List (String × String))
    (categories : List Category) (subcatsOf : Int → List SubCategory) :
    (compose_taken_tickets_list taken_rows users_dict buildings_dict
        categories subcatsOf).isSome = true ↔
      (∀ t ∈ taken_rows, ∀ sid : Int, t.specialist_id = some sid → sid ≠ 0 →
        (pyGet users_dict sid).isSome = true) := by
  by_cases hl : taken_rows.isEmpty
  · rw [List.isEmpty_iff] at hl
    subst hl
    simp [compose_taken_tickets_list]
  · have hEq : (compose_taken_tickets_list taken_rows users_dict buildings_dict
        categories subcatsOf).isSome
        = (renderTakenBlocks users_dict buildings_dict (categoriesDict categories)
            (subcategoriesDict categories subcatsOf) taken_rows).isSome := by
      unfold compose_taken_tickets_list
      simp only [hl, Bool.false_eq_true, if_false]
      cases renderTakenBlocks users_dict buildings_dict (categoriesDict categories)
        (subcategoriesDict categories subcatsOf) taken_rows <;> rfl
    rw [hEq, renderTakenBlocks_isSome]
    simp only [renderTakenBlock_isSome, specialistNameE_isSome]

/-- Counterexample to C10 as stated: a ticket whose `specialist_id` is
the non-null value `0` with an empty users lookup violates the claimed
precondition, yet the composer still returns a digest, because
`if specialist_id:` treats `0` as falsy and renders the sentinel. -/
theorem compose_taken_total_without_resolvable_nonnull_specialist :
    (compose_taken_tickets_list [takenZeroSpecialistRow] [] [] []
        (fun _ => [])).isSome = true ∧
    ¬ allNonNullSpecialistsResolvable [takenZeroSpecialistRow] [] := by
  constructor
  · rfl
  · intro h
    have := h takenZeroSpecialistRow (List.mem_singleton.mpr rfl) 0 rfl
    simp [pyGet] at this

/-- Witness for the amended C10: with the single taken ticket of
specialist `5` and a users lookup containing a row for `5`, the composer
returns a digest. -/
theorem compose_taken_list_total_iff_witness :
    (compose_taken_tickets_list [takenSpecialistFiveRow]
        [(5, ⟨5, some "Ali", none, none⟩)] [] [] (fun _ => [])).isSome = true := by
  refine (compose_taken_list_total_iff _ _ _ _ _).mpr ?_
  intro t ht sid hsid hne
  simp only [List.mem_singleton] at ht
  subst ht
  simp [takenSpecialistFiveRow] at hsid
  subst hsid
  decide

end ReportBot
